import Mathlib

/-!
Shallow embedding of the church record-management canister
(`src/src/index.ts`): six entity classes, six `StableBTreeMap` stores
keyed by string ids, and the Express endpoint handlers modelled as pure
state-passing functions.  JavaScript request-body values are modelled by
`JsValue` (with the source's truthiness and `typeof` checks); `new Date(x)`
coercion by `jsNewDate`; the external uuid generator and the clock are
passed in as explicit `newId` / `now` parameters.
-/

namespace Church

/-- A JSON-decoded JavaScript value as it can appear in a request-body
field.  `obj` stands for any non-primitive value (object or array):
truthy, and neither a string nor a number. -/
inductive JsValue where
  | str (s : String)
  | num (n : Int)
  | bool (b : Bool)
  | null
  | obj
  deriving DecidableEq

/-- JavaScript truthiness of a value: `""`, `0`, `false`, `null` are
falsy; every object is truthy. -/
def truthy : JsValue → Bool
  | .str s => !s.isEmpty
  | .num n => decide (n ≠ 0)
  | .bool b => b
  | .null => false
  | .obj => true

/-- The source's `!req.body.f` test on a possibly-absent field
(an absent field reads as `undefined`, which is falsy). -/
def jsNot : Option JsValue → Bool
  | none => true
  | some v => !truthy v

/-- The source's `typeof req.body.f === "string"` test. -/
def typeofIsString : Option JsValue → Bool
  | some (.str _) => true
  | _ => false

/-- The source's `typeof req.body.f === "number"` test. -/
def typeofIsNumber : Option JsValue → Bool
  | some (.num _) => true
  | _ => false

/-- Extract the string payload of a field known to hold a string. -/
def asString : Option JsValue → String
  | some (.str s) => s
  | _ => ""

/-- Extract the numeric payload of a field known to hold a number. -/
def asNumber : Option JsValue → Int
  | some (.num n) => n
  | _ => 0

/-- A JavaScript `Date`: either a definite timestamp or an Invalid Date.
JavaScript numbers are modelled as integers. -/
inductive JsDate where
  | valid (t : Int)
  | invalid
  deriving DecidableEq

/-- The runtime's string-to-timestamp parsing used by `new Date(string)`
is environment behaviour, abstracted here: decimal integer strings parse
to that timestamp, all other strings fail to parse.  No claim below
depends on which particular strings are timestamp-coercible. -/
def parseDateString (s : String) : Option Int := s.toInt?

/-- `new Date(x)`: numbers give that timestamp, booleans and `null`
coerce numerically, strings go through date parsing, and non-coercible
values give an Invalid Date. -/
def jsNewDate : JsValue → JsDate
  | .num n => .valid n
  | .bool b => .valid (if b then 1 else 0)
  | .null => .valid 0
  | .str s =>
    match parseDateString s with
    | some t => .valid t
    | none => .invalid
  | .obj => .invalid

/-- `new Date(x)` where `x` may be `undefined` (absent field):
`new Date(undefined)` is an Invalid Date. -/
def jsNewDateOpt : Option JsValue → JsDate
  | none => .invalid
  | some v => jsNewDate v

/-- One `StableBTreeMap` store: an association list keyed by string id.
`mapInsert` keeps keys unique, so this is a finite map; the claims below
never depend on iteration order. -/
abbrev StoreMap (T : Type) : Type := List (String × T)

/-- `storage.get(id)`: point lookup, `none` when absent. -/
def mapGet {T : Type} : StoreMap T → String → Option T
  | [], _ => none
  | (k', v) :: rest, k => if k' = k then some v else mapGet rest k

/-- `storage.insert(id, entity)`: insert or replace at `id`. -/
def mapInsert {T : Type} : StoreMap T → String → T → StoreMap T
  | [], k, v => [(k, v)]
  | (k', v') :: rest, k, v =>
    if k' = k then (k, v) :: rest else (k', v') :: mapInsert rest k v

/-- `storage.remove(id)`: delete the record at `id` if present. -/
def mapRemove {T : Type} : StoreMap T → String → StoreMap T
  | [], _ => []
  | (k', v') :: rest, k => if k' = k then rest else (k', v') :: mapRemove rest k

/-- `storage.values()`: all stored records. -/
def mapValues {T : Type} (m : StoreMap T) : List T := m.map (fun p => p.2)

/-- The `Member` class.  The three data fields hold arbitrary JS values
because `PUT /members/:id` stores any truthy value without a type check;
`POST /members` only ever stores strings in them. -/
structure Member where
  id : String
  name : JsValue
  contact : JsValue
  membershipStatus : JsValue
  createdAt : Int
  deriving DecidableEq

/-- The `Member` constructor: `id` from the uuid generator, `createdAt`
from the clock. -/
def Member.make (name contact membershipStatus : JsValue)
    (newId : String) (now : Int) : Member :=
  { id := newId, name := name, contact := contact,
    membershipStatus := membershipStatus, createdAt := now }

/-- The `Event` class. -/
structure Event where
  id : String
  title : String
  description : String
  dateTime : JsDate
  location : String
  createdAt : Int
  deriving DecidableEq

/-- The `Donation` class. -/
structure Donation where
  id : String
  donorId : String
  amount : Int
  createdAt : Int
  deriving DecidableEq

/-- The `Contribution` class. -/
structure Contribution where
  id : String
  memberId : String
  type : String
  amount : Int
  description : String
  commitmentDate : JsDate
  fulfillmentDate : Option JsDate
  createdAt : Int
  deriving DecidableEq

/-- The `Contribution` constructor: `commitmentDate || new Date()` — a
`Date` object is always truthy (even an Invalid Date), so a passed
argument is always used and only an omitted one defaults to the current
time; `fulfillmentDate` starts `null`. -/
def Contribution.make (memberId ty : String) (amount : Int)
    (description : String) (commitmentDate : Option JsDate)
    (newId : String) (now : Int) : Contribution :=
  { id := newId, memberId := memberId, type := ty, amount := amount,
    description := description,
    commitmentDate := commitmentDate.getD (JsDate.valid now),
    fulfillmentDate := none, createdAt := now }

/-- The `PrayerRequest` class. -/
structure PrayerRequest where
  id : String
  memberId : String
  request : String
  createdAt : Int
  deriving DecidableEq

/-- The `Content` class. -/
structure Content where
  id : String
  type : String
  title : String
  content : String
  createdAt : Int
  deriving DecidableEq

/-- The six stable stores. -/
structure State where
  membersStorage : StoreMap Member
  eventsStorage : StoreMap Event
  donationsStorage : StoreMap Donation
  prayerRequestsStorage : StoreMap PrayerRequest
  contentStorage : StoreMap Content
  contributionsStorage : StoreMap Contribution
  deriving DecidableEq

/-- All six stores empty. -/
def emptyState : State :=
  { membersStorage := [], eventsStorage := [], donationsStorage := [],
    prayerRequestsStorage := [], contentStorage := [],
    contributionsStorage := [] }

/-- Outcome of an endpoint: `ok` is the 200/201 success payload,
`validationError` the 400 response, `notFound` the 404 response. -/
inductive ApiResult (T : Type) where
  | ok (v : T)
  | validationError
  | notFound
  deriving DecidableEq

/-- Request body of `POST /members` and `PUT /members/:id`. -/
structure MemberBody where
  name : Option JsValue
  contact : Option JsValue
  membershipStatus : Option JsValue
  deriving DecidableEq

/-- Request body of `POST /events`. -/
structure EventBody where
  title : Option JsValue
  description : Option JsValue
  dateTime : Option JsValue
  location : Option JsValue
  deriving DecidableEq

/-- Request body of `POST /donations`. -/
structure DonationBody where
  donorId : Option JsValue
  amount : Option JsValue
  deriving DecidableEq

/-- Request body of `POST /contributions`. -/
structure ContributionBody where
  memberId : Option JsValue
  type : Option JsValue
  amount : Option JsValue
  description : Option JsValue
  commitmentDate : Option JsValue
  deriving DecidableEq

/-- Request body of `POST /prayer-requests`. -/
structure PrayerRequestBody where
  memberId : Option JsValue
  request : Option JsValue
  deriving DecidableEq

/-- Request body of `POST /contents`. -/
structure ContentBody where
  type : Option JsValue
  title : Option JsValue
  content : Option JsValue
  deriving DecidableEq

/-- The validation condition of `POST /members` (true = input rejected). -/
def memberInvalid (b : MemberBody) : Bool :=
  jsNot b.name || !typeofIsString b.name
    || jsNot b.contact || !typeofIsString b.contact
    || jsNot b.membershipStatus || !typeofIsString b.membershipStatus

/-- The validation condition of `POST /events`: note `dateTime` is only
tested for truthiness, with no type or parseability check. -/
def eventInvalid (b : EventBody) : Bool :=
  jsNot b.title || !typeofIsString b.title
    || jsNot b.description || !typeofIsString b.description
    || jsNot b.dateTime
    || jsNot b.location || !typeofIsString b.location

/-- The validation condition of `POST /donations`. -/
def donationInvalid (b : DonationBody) : Bool :=
  jsNot b.donorId || !typeofIsString b.donorId
    || jsNot b.amount || !typeofIsNumber b.amount

/-- The validation condition of `POST /contributions`, including the
`type === "Pledge" && !commitmentDate` clause. -/
def contributionInvalid (b : ContributionBody) : Bool :=
  jsNot b.memberId || !typeofIsString b.memberId
    || jsNot b.type || !typeofIsString b.type
    || jsNot b.amount || !typeofIsNumber b.amount
    || jsNot b.description || !typeofIsString b.description
    || (decide (b.type = some (JsValue.str "Pledge")) && jsNot b.commitmentDate)

/-- The validation condition of `POST /prayer-requests`. -/
def prayerRequestInvalid (b : PrayerRequestBody) : Bool :=
  jsNot b.memberId || !typeofIsString b.memberId
    || jsNot b.request || !typeofIsString b.request

/-- The validation condition of `POST /contents`. -/
def contentInvalid (b : ContentBody) : Bool :=
  jsNot b.type || !typeofIsString b.type
    || jsNot b.title || !typeofIsString b.title
    || jsNot b.content || !typeofIsString b.content

/-- `POST /members`. -/
def createMember (s : State) (b : MemberBody) (newId : String)
    (now : Int) : ApiResult Member × State :=
  if memberInvalid b then
    (.validationError, s)
  else
    let member := Member.make (b.name.getD .null) (b.contact.getD .null)
      (b.membershipStatus.getD .null) newId now
    (.ok member,
      { s with membersStorage := mapInsert s.membersStorage member.id member })

/-- `POST /events`: the stored `dateTime` is `new Date(req.body.dateTime)`. -/
def createEvent (s : State) (b : EventBody) (newId : String)
    (now : Int) : ApiResult Event × State :=
  if eventInvalid b then
    (.validationError, s)
  else
    let event : Event :=
      { id := newId, title := asString b.title,
        description := asString b.description,
        dateTime := jsNewDateOpt b.dateTime,
        location := asString b.location, createdAt := now }
    (.ok event,
      { s with eventsStorage := mapInsert s.eventsStorage event.id event })

/-- `POST /donations`. -/
def createDonation (s : State) (b : DonationBody) (newId : String)
    (now : Int) : ApiResult Donation × State :=
  if donationInvalid b then
    (.validationError, s)
  else
    let donation : Donation :=
      { id := newId, donorId := asString b.donorId,
        amount := asNumber b.amount, createdAt := now }
    (.ok donation,
      { s with donationsStorage := mapInsert s.donationsStorage donation.id donation })

/-- `POST /contributions`: field validation first, then the referential
check `membersStorage.get(memberId)`, then construction; for a Pledge the
constructor argument is `new Date(req.body.commitmentDate)`, otherwise
`undefined`. -/
def createContribution (s : State) (b : ContributionBody) (newId : String)
    (now : Int) : ApiResult Contribution × State :=
  if contributionInvalid b then
    (.validationError, s)
  else
    match mapGet s.membersStorage (asString b.memberId) with
    | none => (.notFound, s)
    | some _ =>
      let contribution := Contribution.make (asString b.memberId)
        (asString b.type) (asNumber b.amount) (asString b.description)
        (if b.type = some (JsValue.str "Pledge")
          then some (jsNewDateOpt b.commitmentDate) else none)
        newId now
      (.ok contribution,
        { s with contributionsStorage :=
            mapInsert s.contributionsStorage contribution.id contribution })

/-- `POST /prayer-requests`. -/
def createPrayerRequest (s : State) (b : PrayerRequestBody) (newId : String)
    (now : Int) : ApiResult PrayerRequest × State :=
  if prayerRequestInvalid b then
    (.validationError, s)
  else
    let pr : PrayerRequest :=
      { id := newId, memberId := asString b.memberId,
        request := asString b.request, createdAt := now }
    (.ok pr,
      { s with prayerRequestsStorage := mapInsert s.prayerRequestsStorage pr.id pr })

/-- `POST /contents`. -/
def createContent (s : State) (b : ContentBody) (newId : String)
    (now : Int) : ApiResult Content × State :=
  if contentInvalid b then
    (.validationError, s)
  else
    let content : Content :=
      { id := newId, type := asString b.type, title := asString b.title,
        content := asString b.content, createdAt := now }
    (.ok content,
      { s with contentStorage := mapInsert s.contentStorage content.id content })

/-- `GET /members/:id` (a pure read: no store changes). -/
def getMember (s : State) (memberId : String) : ApiResult Member :=
  match mapGet s.membersStorage memberId with
  | none => .notFound
  | some m => .ok m

/-- `PUT /members/:id`: lookup first (404 if absent), then the truthiness
check `!name || !contact || !membershipStatus` (no type check), then the
three fields are replaced and the record re-inserted at the same id. -/
def updateMember (s : State) (memberId : String) (b : MemberBody) :
    ApiResult Member × State :=
  match mapGet s.membersStorage memberId with
  | none => (.notFound, s)
  | some member =>
    if jsNot b.name || jsNot b.contact || jsNot b.membershipStatus then
      (.validationError, s)
    else
      let updated : Member :=
        { member with
          name := b.name.getD JsValue.null
          contact := b.contact.getD JsValue.null
          membershipStatus := b.membershipStatus.getD JsValue.null }
      (.ok updated,
        { s with membersStorage := mapInsert s.membersStorage memberId updated })

/-- `DELETE /members/:id`. -/
def deleteMember (s : State) (memberId : String) : ApiResult Unit × State :=
  match mapGet s.membersStorage memberId with
  | none => (.notFound, s)
  | some _ =>
    (.ok (), { s with membersStorage := mapRemove s.membersStorage memberId })

/-- `GET /members` (and analogously the other list endpoints). -/
def listMembers (s : State) : List Member := mapValues s.membersStorage

/-- `GET /contributions`. -/
def listContributions (s : State) : List Contribution :=
  mapValues s.contributionsStorage

/-! ### Sample data used by witnesses and counterexamples -/

/-- A stored member, as created by `POST /members`. -/
def mAna : Member :=
  { id := "m1", name := JsValue.str "Ana", contact := JsValue.str "a@x.com",
    membershipStatus := JsValue.str "Active", createdAt := 0 }

/-- A state whose Member store holds exactly `mAna` under key "m1". -/
def oneMemberState : State :=
  { emptyState with membersStorage := [("m1", mAna)] }

/-- Contribution body with memberId "ghost", `amount = 0` (a number, but
falsy) and all other fields non-empty strings. -/
def zeroAmountGhostBody : ContributionBody :=
  { memberId := some (JsValue.str "ghost"), type := some (JsValue.str "Tithe"),
    amount := some (JsValue.num 0), description := some (JsValue.str "x"),
    commitmentDate := none }

/-- Contribution body with memberId "ghost" and fields that pass the
endpoint's own validation. -/
def ghostTitheBody : ContributionBody :=
  { memberId := some (JsValue.str "ghost"), type := some (JsValue.str "Tithe"),
    amount := some (JsValue.num 10), description := some (JsValue.str "x"),
    commitmentDate := none }

/-- Pledge body whose `commitmentDate` is present but falsy (the number 0). -/
def zeroDatePledgeBody : ContributionBody :=
  { memberId := some (JsValue.str "m1"), type := some (JsValue.str "Pledge"),
    amount := some (JsValue.num 10), description := some (JsValue.str "x"),
    commitmentDate := some (JsValue.num 0) }

/-- Pledge body with no `commitmentDate`. -/
def noDatePledgeBody : ContributionBody :=
  { memberId := some (JsValue.str "m1"), type := some (JsValue.str "Pledge"),
    amount := some (JsValue.num 10), description := some (JsValue.str "x"),
    commitmentDate := none }

/-- Pledge body with a truthy `commitmentDate` (the number 9). -/
def datedPledgeBody : ContributionBody :=
  { memberId := some (JsValue.str "m1"), type := some (JsValue.str "Pledge"),
    amount := some (JsValue.num 10), description := some (JsValue.str "x"),
    commitmentDate := some (JsValue.num 9) }

/-- Tithe body carrying a supplied `commitmentDate` of 5. -/
def datedTitheBody : ContributionBody :=
  { memberId := some (JsValue.str "m1"), type := some (JsValue.str "Tithe"),
    amount := some (JsValue.num 50), description := some (JsValue.str "Sunday"),
    commitmentDate := some (JsValue.num 5) }

/-- Donation body with a non-empty donor string and `amount = 0`. -/
def zeroAmountDonationBody : DonationBody :=
  { donorId := some (JsValue.str "d1"), amount := some (JsValue.num 0) }

/-- Event body whose `dateTime` is a truthy object, which `new Date`
cannot coerce to a timestamp. -/
def objDateEventBody : EventBody :=
  { title := some (JsValue.str "t"), description := some (JsValue.str "d"),
    dateTime := some JsValue.obj, location := some (JsValue.str "l") }

/-! ### Lemmas about the store primitives -/

theorem mapGet_insert {T : Type} (m : StoreMap T) (k : String) (v : T) :
    mapGet (mapInsert m k v) k = some v := by
  induction m with
  | nil => simp [mapInsert, mapGet]
  | cons hd tl ih =>
    obtain ⟨k', v'⟩ := hd
    by_cases h : k' = k
    · simp [mapInsert, mapGet, h]
    · simp [mapInsert, mapGet, h, ih]

theorem mapGet_insert_ne {T : Type} (m : StoreMap T) (k : String) (v : T)
    (k₂ : String) (hne : k₂ ≠ k) :
    mapGet (mapInsert m k v) k₂ = mapGet m k₂ := by
  induction m with
  | nil =>
    have h2 : ¬k = k₂ := fun hh => hne hh.symm
    simp [mapInsert, mapGet, h2]
  | cons hd tl ih =>
    obtain ⟨k', v'⟩ := hd
    by_cases h : k' = k
    · subst h
      have h2 : ¬k' = k₂ := fun hh => hne hh.symm
      simp [mapInsert, mapGet, h2]
    · simp [mapInsert, mapGet, h, ih]

theorem mem_values_insert {T : Type} (m : StoreMap T) (k : String) (v : T) :
    v ∈ mapValues (mapInsert m k v) := by
  induction m with
  | nil => simp [mapInsert, mapValues]
  | cons hd tl ih =>
    obtain ⟨k', v'⟩ := hd
    by_cases h : k' = k
    · simp [mapInsert, mapValues, h]
    · simp only [mapInsert, mapValues, h, if_false, List.map_cons]
      exact List.mem_cons_of_mem _ (by simpa [mapValues] using ih)

/-! ### C3 -/

/-- C3: for each of the six create operations, any input that fails that
entity's validation check is answered with a ValidationError and no store
is mutated; for Contribution this holds for every state, in particular
when `memberId` is also absent from the Member store, so a
field-validation failure is reported as ValidationError, never as a
not-found signal. -/
theorem C3_validation_gating :
    (∀ (s : State) (b : MemberBody) (newId : String) (now : Int),
      memberInvalid b = true →
      createMember s b newId now = (.validationError, s)) ∧
    (∀ (s : State) (b : EventBody) (newId : String) (now : Int),
      eventInvalid b = true →
      createEvent s b newId now = (.validationError, s)) ∧
    (∀ (s : State) (b : DonationBody) (newId : String) (now : Int),
      donationInvalid b = true →
      createDonation s b newId now = (.validationError, s)) ∧
    (∀ (s : State) (b : ContributionBody) (newId : String) (now : Int),
      contributionInvalid b = true →
      createContribution s b newId now = (.validationError, s)) ∧
    (∀ (s : State) (b : PrayerRequestBody) (newId : String) (now : Int),
      prayerRequestInvalid b = true →
      createPrayerRequest s b newId now = (.validationError, s)) ∧
    (∀ (s : State) (b : ContentBody) (newId : String) (now : Int),
      contentInvalid b = true →
      createContent s b newId now = (.validationError, s)) := by
  refine ⟨?_, ?_, ?_, ?_, ?_, ?_⟩ <;> intro s b newId now h
  · simp [createMember, h]
  · simp [createEvent, h]
  · simp [createDonation, h]
  · simp [createContribution, h]
  · simp [createPrayerRequest, h]
  · simp [createContent, h]

/-- A field-invalid body for each entity, instantiating C3; the
contribution case uses a memberId absent from the (empty) Member store
and still gets ValidationError, not a not-found signal. -/
theorem C3_validation_gating_witness :
    createMember emptyState
      { name := some (JsValue.str ""), contact := some (JsValue.str "c"),
        membershipStatus := some (JsValue.str "Active") } "m1" 0
      = (.validationError, emptyState) ∧
    createEvent emptyState
      { title := some (JsValue.str "t"), description := some (JsValue.str "d"),
        dateTime := none, location := some (JsValue.str "l") } "e1" 0
      = (.validationError, emptyState) ∧
    createDonation emptyState
      { donorId := some (JsValue.num 3), amount := some (JsValue.num 5) } "d1" 0
      = (.validationError, emptyState) ∧
    createContribution emptyState
      { memberId := some (JsValue.str "ghost"), type := some (JsValue.str "Tithe"),
        amount := some (JsValue.num 10), description := none,
        commitmentDate := none } "c1" 0
      = (.validationError, emptyState) ∧
    createPrayerRequest emptyState
      { memberId := some (JsValue.str "m"), request := some JsValue.null } "p1" 0
      = (.validationError, emptyState) ∧
    createContent emptyState
      { type := some (JsValue.bool true), title := some (JsValue.str "t"),
        content := some (JsValue.str "c") } "ct1" 0
      = (.validationError, emptyState) :=
  ⟨C3_validation_gating.1 _ _ _ _ (by decide),
   C3_validation_gating.2.1 _ _ _ _ (by decide),
   C3_validation_gating.2.2.1 _ _ _ _ (by decide),
   C3_validation_gating.2.2.2.1 _ _ _ _ (by decide),
   C3_validation_gating.2.2.2.2.1 _ _ _ _ (by decide),
   C3_validation_gating.2.2.2.2.2 _ _ _ _ (by decide)⟩

/-! ### C4 -/

/-- C4: when `id` is not a key of the Member store, `GET /members/:id`,
`PUT /members/:id` (for every body) and `DELETE /members/:id` all answer
NotFound and leave every store unchanged. -/
theorem C4_absent_member_ops (s : State) (memberId : String)
    (h : mapGet s.membersStorage memberId = none) :
    getMember s memberId = .notFound ∧
    (∀ b : MemberBody, updateMember s memberId b = (.notFound, s)) ∧
    deleteMember s memberId = (.notFound, s) := by
  refine ⟨?_, fun b => ?_, ?_⟩
  · simp [getMember, h]
  · simp [updateMember, h]
  · simp [deleteMember, h]

/-- C4 instantiated at the empty state and id "nonexistent-id". -/
theorem C4_absent_member_ops_witness :
    getMember emptyState "nonexistent-id" = .notFound ∧
    updateMember emptyState "nonexistent-id"
      { name := some (JsValue.str "n"), contact := some (JsValue.str "c"),
        membershipStatus := some (JsValue.str "Active") }
      = (.notFound, emptyState) ∧
    deleteMember emptyState "nonexistent-id" = (.notFound, emptyState) :=
  ⟨(C4_absent_member_ops emptyState "nonexistent-id" (by decide)).1,
   (C4_absent_member_ops emptyState "nonexistent-id" (by decide)).2.1 _,
   (C4_absent_member_ops emptyState "nonexistent-id" (by decide)).2.2⟩

/-! ### C7 -/

/-- C7: on an existing id, `PUT /members/:id` accepts any truthy values
for `name`, `contact` and `membershipStatus` — there is no string type
check, unlike Create — rejects falsy values with a ValidationError and no
state change, and on success replaces exactly those three fields,
re-inserts the record at the same id, and returns it. -/
theorem C7_update_truthiness (s : State) (memberId : String) (m : Member)
    (b : MemberBody) (hm : mapGet s.membersStorage memberId = some m) :
    ((jsNot b.name || jsNot b.contact || jsNot b.membershipStatus) = false →
      updateMember s memberId b =
        (.ok { m with
                name := b.name.getD JsValue.null
                contact := b.contact.getD JsValue.null
                membershipStatus := b.membershipStatus.getD JsValue.null },
         { s with membersStorage := (mapInsert s.membersStorage memberId
            { m with
              name := b.name.getD JsValue.null
              contact := b.contact.getD JsValue.null
              membershipStatus := b.membershipStatus.getD JsValue.null }) })) ∧
    ((jsNot b.name || jsNot b.contact || jsNot b.membershipStatus) = true →
      updateMember s memberId b = (.validationError, s)) := by
  constructor <;> intro h <;> simp [updateMember, hm, h]

/-- C7 at a concrete state: truthy non-string values (a number, an
object, a boolean) are accepted and stored; an empty-string contact is
rejected with ValidationError. -/
theorem C7_update_truthiness_witness :
    updateMember oneMemberState "m1"
      { name := some (JsValue.num 5), contact := some JsValue.obj,
        membershipStatus := some (JsValue.bool true) } =
      (.ok (Member.mk "m1" (JsValue.num 5) JsValue.obj (JsValue.bool true) 0),
       { emptyState with membersStorage :=
          [("m1", Member.mk "m1" (JsValue.num 5) JsValue.obj (JsValue.bool true) 0)] }) ∧
    updateMember oneMemberState "m1"
      { name := some (JsValue.str "n"), contact := some (JsValue.str ""),
        membershipStatus := some (JsValue.str "Active") } =
      (.validationError, oneMemberState) := by
  constructor
  · simpa [oneMemberState, mAna, emptyState, mapInsert] using
      (C7_update_truthiness oneMemberState "m1" mAna
        { name := some (JsValue.num 5), contact := some JsValue.obj,
          membershipStatus := some (JsValue.bool true) } (by decide)).1 (by decide)
  · exact (C7_update_truthiness oneMemberState "m1" mAna
      { name := some (JsValue.str "n"), contact := some (JsValue.str ""),
        membershipStatus := some (JsValue.str "Active") } (by decide)).2 (by decide)

/-! ### C9 -/

/-- C9: a successful `PUT /members/:id` changes only the three data
fields of the targeted record — its `id` and `createdAt` are those of the
previously stored record — every other Member record is unchanged, and
the five other stores are unchanged. -/
theorem C9_update_frame (s : State) (memberId : String) (b : MemberBody)
    (m' : Member) (s' : State)
    (h : updateMember s memberId b = (.ok m', s')) :
    (∃ m, mapGet s.membersStorage memberId = some m ∧
      m'.id = m.id ∧ m'.createdAt = m.createdAt) ∧
    mapGet s'.membersStorage memberId = some m' ∧
    (∀ k, k ≠ memberId → mapGet s'.membersStorage k = mapGet s.membersStorage k) ∧
    s'.eventsStorage = s.eventsStorage ∧
    s'.donationsStorage = s.donationsStorage ∧
    s'.prayerRequestsStorage = s.prayerRequestsStorage ∧
    s'.contentStorage = s.contentStorage ∧
    s'.contributionsStorage = s.contributionsStorage := by
  unfold updateMember at h
  cases hm : mapGet s.membersStorage memberId with
  | none => rw [hm] at h; simp at h
  | some member =>
    rw [hm] at h
    by_cases hv : (jsNot b.name || jsNot b.contact || jsNot b.membershipStatus) = true
    · simp [hv] at h
    · have hv' : (jsNot b.name || jsNot b.contact || jsNot b.membershipStatus) = false := by
        simpa using hv
      rw [hv'] at h
      simp only [Bool.false_eq_true, if_false, Prod.mk.injEq] at h
      obtain ⟨h1, h2⟩ := h
      have hmem : m' = { member with
          name := b.name.getD JsValue.null
          contact := b.contact.getD JsValue.null
          membershipStatus := b.membershipStatus.getD JsValue.null } := by
        cases h1'' : m'
        simp_all
      subst h2
      refine ⟨⟨member, rfl, by simp [hmem], by simp [hmem]⟩, ?_, ?_, rfl, rfl, rfl, rfl, rfl⟩
      · simpa [hmem] using mapGet_insert s.membersStorage memberId m'
      · intro k hk
        simpa using mapGet_insert_ne s.membersStorage memberId _ k hk

/-- C9 at a concrete update on `oneMemberState`. -/
theorem C9_update_frame_witness :
    (∃ m, mapGet oneMemberState.membersStorage "m1" = some m ∧
      (Member.mk "m1" (JsValue.str "Bea") (JsValue.str "b@x.com")
        (JsValue.str "Active") 0).id = m.id ∧
      (Member.mk "m1" (JsValue.str "Bea") (JsValue.str "b@x.com")
        (JsValue.str "Active") 0).createdAt = m.createdAt) ∧
    mapGet ({ emptyState with membersStorage :=
        [("m1", Member.mk "m1" (JsValue.str "Bea") (JsValue.str "b@x.com")
          (JsValue.str "Active") 0)] } : State).membersStorage "m1"
      = some (Member.mk "m1" (JsValue.str "Bea") (JsValue.str "b@x.com")
          (JsValue.str "Active") 0) ∧
    (∀ k, k ≠ "m1" →
      mapGet ({ emptyState with membersStorage :=
          [("m1", Member.mk "m1" (JsValue.str "Bea") (JsValue.str "b@x.com")
            (JsValue.str "Active") 0)] } : State).membersStorage k
        = mapGet oneMemberState.membersStorage k) ∧
    ({ emptyState with membersStorage :=
        [("m1", Member.mk "m1" (JsValue.str "Bea") (JsValue.str "b@x.com")
          (JsValue.str "Active") 0)] } : State).eventsStorage
      = oneMemberState.eventsStorage ∧
    ({ emptyState with membersStorage :=
        [("m1", Member.mk "m1" (JsValue.str "Bea") (JsValue.str "b@x.com")
          (JsValue.str "Active") 0)] } : State).donationsStorage
      = oneMemberState.donationsStorage ∧
    ({ emptyState with membersStorage :=
        [("m1", Member.mk "m1" (JsValue.str "Bea") (JsValue.str "b@x.com")
          (JsValue.str "Active") 0)] } : State).prayerRequestsStorage
      = oneMemberState.prayerRequestsStorage ∧
    ({ emptyState with membersStorage :=
        [("m1", Member.mk "m1" (JsValue.str "Bea") (JsValue.str "b@x.com")
          (JsValue.str "Active") 0)] } : State).contentStorage
      = oneMemberState.contentStorage ∧
    ({ emptyState with membersStorage :=
        [("m1", Member.mk "m1" (JsValue.str "Bea") (JsValue.str "b@x.com")
          (JsValue.str "Active") 0)] } : State).contributionsStorage
      = oneMemberState.contributionsStorage :=
  C9_update_frame oneMemberState "m1"
    { name := some (JsValue.str "Bea"), contact := some (JsValue.str "b@x.com"),
      membershipStatus := some (JsValue.str "Active") } _ _ (by decide)

/-! ### C10 -/

/-- C10: a successful `POST /contributions` whose `type` is not the
literal "Pledge" ignores any supplied `commitmentDate`: the stored
record's `commitmentDate` is the creation time and its `fulfillmentDate`
is null. -/
theorem C10_nonpledge_commitment (s : State) (b : ContributionBody)
    (newId : String) (now : Int) (c : Contribution) (s' : State)
    (ht : b.type ≠ some (JsValue.str "Pledge"))
    (h : createContribution s b newId now = (.ok c, s')) :
    c.commitmentDate = JsDate.valid now ∧ c.fulfillmentDate = none ∧
    mapGet s'.contributionsStorage newId = some c := by
  unfold createContribution at h
  by_cases hv : contributionInvalid b = true
  · simp [hv] at h
  · have hv' : contributionInvalid b = false := by simpa using hv
    rw [hv'] at h
    simp only [Bool.false_eq_true, if_false] at h
    cases hg : mapGet s.membersStorage (asString b.memberId) with
    | none => rw [hg] at h; simp at h
    | some mem =>
      rw [hg] at h
      rw [if_neg ht] at h
      simp only [Prod.mk.injEq, ApiResult.ok.injEq] at h
      obtain ⟨h1, h2⟩ := h
      subst h1
      subst h2
      refine ⟨rfl, rfl, ?_⟩
      simpa [Contribution.make] using
        mapGet_insert s.contributionsStorage newId
          (Contribution.make (asString b.memberId) (asString b.type)
            (asNumber b.amount) (asString b.description) none newId now)

/-- C10 at a concrete Tithe contribution carrying a (ignored)
`commitmentDate` of 99, created at time 7. -/
theorem C10_nonpledge_commitment_witness :
    (Contribution.mk "c1" "m1" "Tithe" 50 "Sunday" (JsDate.valid 7) none 7).commitmentDate
      = JsDate.valid 7 ∧
    (Contribution.mk "c1" "m1" "Tithe" 50 "Sunday" (JsDate.valid 7) none 7).fulfillmentDate
      = none ∧
    mapGet ({ oneMemberState with contributionsStorage :=
        [("c1", Contribution.mk "c1" "m1" "Tithe" 50 "Sunday" (JsDate.valid 7) none 7)] }
        : State).contributionsStorage "c1"
      = some (Contribution.mk "c1" "m1" "Tithe" 50 "Sunday" (JsDate.valid 7) none 7) :=
  C10_nonpledge_commitment oneMemberState
    { memberId := some (JsValue.str "m1"), type := some (JsValue.str "Tithe"),
      amount := some (JsValue.num 50), description := some (JsValue.str "Sunday"),
      commitmentDate := some (JsValue.num 99) } "c1" 7 _ _ (by decide) (by decide)

/-! ### C1 -/

/-- C1 counterexample: `zeroAmountGhostBody` satisfies the claim's field
description — memberId, type, description non-empty strings, amount a
number, type not "Pledge" — and its memberId is not a key of the (empty)
Member store, yet the endpoint answers ValidationError, not the claimed
not-found signal (the handler's truthiness test rejects `amount = 0`
before the referential check runs). -/
theorem C1_counterexample :
    typeofIsString zeroAmountGhostBody.memberId = true ∧
    asString zeroAmountGhostBody.memberId ≠ "" ∧
    typeofIsString zeroAmountGhostBody.type = true ∧
    asString zeroAmountGhostBody.type ≠ "" ∧
    typeofIsString zeroAmountGhostBody.description = true ∧
    asString zeroAmountGhostBody.description ≠ "" ∧
    typeofIsNumber zeroAmountGhostBody.amount = true ∧
    zeroAmountGhostBody.type ≠ some (JsValue.str "Pledge") ∧
    mapGet emptyState.membersStorage (asString zeroAmountGhostBody.memberId) = none ∧
    createContribution emptyState zeroAmountGhostBody "c1" 0
      = (ApiResult.validationError, emptyState) ∧
    (createContribution emptyState zeroAmountGhostBody "c1" 0).1
      ≠ (ApiResult.notFound : ApiResult Contribution) := by
  decide

/-- C1 (amended): for a createContribution input that passes the
endpoint's field validation — memberId, type, description truthy
(non-empty) strings, amount a truthy (nonzero) number, commitmentDate
truthy when type is "Pledge" — if memberId is not a key of the Member
store, the endpoint answers the 404 not-found signal (a constructor
distinct from `validationError`) and every store is unchanged. -/
theorem C1_member_not_found (s : State) (b : ContributionBody)
    (newId : String) (now : Int)
    (h1 : jsNot b.memberId = false) (h2 : typeofIsString b.memberId = true)
    (h3 : jsNot b.type = false) (h4 : typeofIsString b.type = true)
    (h5 : jsNot b.amount = false) (h6 : typeofIsNumber b.amount = true)
    (h7 : jsNot b.description = false) (h8 : typeofIsString b.description = true)
    (h9 : b.type = some (JsValue.str "Pledge") → jsNot b.commitmentDate = false)
    (habs : mapGet s.membersStorage (asString b.memberId) = none) :
    createContribution s b newId now = (.notFound, s) := by
  have hv : contributionInvalid b = false := by
    unfold contributionInvalid
    simp only [h1, h2, h3, h4, h5, h6, h7, h8, Bool.not_true, Bool.or_false,
      Bool.false_or]
    by_cases hp : b.type = some (JsValue.str "Pledge")
    · simp [hp, h9 hp]
    · simp [hp]
  unfold createContribution
  rw [hv]
  simp [habs]

/-- C1 applied to `ghostTitheBody` over `oneMemberState`: every field
passes validation, "ghost" is absent, and the answer is the 404 signal
with all stores unchanged. -/
theorem C1_member_not_found_witness :
    createContribution oneMemberState ghostTitheBody "c1" 0
      = (.notFound, oneMemberState) :=
  C1_member_not_found oneMemberState ghostTitheBody "c1" 0
    (by decide) (by decide) (by decide) (by decide) (by decide) (by decide)
    (by decide) (by decide) (by decide) (by decide)

/-! ### C2 -/

/-- C2 counterexample: `zeroDatePledgeBody` is a Pledge whose
`commitmentDate` is present (the number 0) and whose other fields are
valid, over a state in which its memberId "m1" exists; the claim says
this create succeeds, but the endpoint answers ValidationError because
`!req.body.commitmentDate` treats the present falsy value as missing. -/
theorem C2_counterexample :
    zeroDatePledgeBody.commitmentDate = some (JsValue.num 0) ∧
    zeroDatePledgeBody.type = some (JsValue.str "Pledge") ∧
    typeofIsString zeroDatePledgeBody.memberId = true ∧
    asString zeroDatePledgeBody.memberId ≠ "" ∧
    typeofIsNumber zeroDatePledgeBody.amount = true ∧
    asNumber zeroDatePledgeBody.amount ≠ 0 ∧
    typeofIsString zeroDatePledgeBody.description = true ∧
    asString zeroDatePledgeBody.description ≠ "" ∧
    mapGet oneMemberState.membersStorage
      (asString zeroDatePledgeBody.memberId) = some mAna ∧
    createContribution oneMemberState zeroDatePledgeBody "c1" 5
      = (ApiResult.validationError, oneMemberState) := by
  decide

/-- C2 (amended): a Pledge with `commitmentDate` absent is always a
ValidationError with no insertion; a Pledge whose `commitmentDate` is
present and truthy (a present falsy value such as 0 counts as absent),
whose other fields pass validation and whose memberId exists, succeeds
and returns the created Contribution (whose `commitmentDate` is the
`new Date` coercion of the supplied value). -/
theorem C2_pledge_gating :
    (∀ (s : State) (b : ContributionBody) (newId : String) (now : Int),
      b.type = some (JsValue.str "Pledge") → b.commitmentDate = none →
      createContribution s b newId now = (.validationError, s)) ∧
    (∀ (s : State) (b : ContributionBody) (newId : String) (now : Int)
      (m : Member),
      b.type = some (JsValue.str "Pledge") →
      jsNot b.commitmentDate = false →
      jsNot b.memberId = false → typeofIsString b.memberId = true →
      jsNot b.amount = false → typeofIsNumber b.amount = true →
      jsNot b.description = false → typeofIsString b.description = true →
      mapGet s.membersStorage (asString b.memberId) = some m →
      createContribution s b newId now =
        (.ok (Contribution.make (asString b.memberId) (asString b.type)
            (asNumber b.amount) (asString b.description)
            (some (jsNewDateOpt b.commitmentDate)) newId now),
         { s with contributionsStorage := (mapInsert s.contributionsStorage newId
            (Contribution.make (asString b.memberId) (asString b.type)
              (asNumber b.amount) (asString b.description)
              (some (jsNewDateOpt b.commitmentDate)) newId now)) })) := by
  constructor
  · intro s b newId now hP hC
    have hv : contributionInvalid b = true := by
      unfold contributionInvalid
      simp [hP, hC, jsNot]
    simp [createContribution, hv]
  · intro s b newId now m hP hC h1 h2 h5 h6 h7 h8 hmem
    have hv : contributionInvalid b = false := by
      unfold contributionInvalid
      simp only [h1, h2, h5, h6, h7, h8, hC, hP, Bool.not_true, Bool.or_false,
        Bool.false_or, Bool.and_false]
      simp only [jsNot, truthy, typeofIsString]
      decide
    unfold createContribution
    rw [hv]
    simp only [Bool.false_eq_true, if_false]
    rw [hmem]
    rw [if_pos hP]
    simp [Contribution.make]

/-- C2 applied concretely: a Pledge without `commitmentDate` is rejected
even over a state holding its member; a Pledge with `commitmentDate = 9`
over `oneMemberState` is created at time 3 with the coerced date
stored. -/
theorem C2_pledge_gating_witness :
    createContribution oneMemberState noDatePledgeBody "c1" 3
      = (.validationError, oneMemberState) ∧
    createContribution oneMemberState datedPledgeBody "c1" 3
      = (.ok (Contribution.mk "c1" "m1" "Pledge" 10 "x" (JsDate.valid 9) none 3),
         { oneMemberState with contributionsStorage :=
            [("c1", Contribution.mk "c1" "m1" "Pledge" 10 "x" (JsDate.valid 9) none 3)] }) := by
  constructor
  · exact C2_pledge_gating.1 oneMemberState noDatePledgeBody "c1" 3
      (by decide) (by decide)
  · simpa [oneMemberState, mAna, emptyState, datedPledgeBody, Contribution.make,
      mapInsert, asString, asNumber, jsNewDateOpt, jsNewDate] using
      C2_pledge_gating.2 oneMemberState datedPledgeBody "c1" 3 mAna
        (by decide) (by decide) (by decide) (by decide) (by decide) (by decide)
        (by decide) (by decide) (by decide)

/-! ### C6 -/

/-- C6 counterexample: `zeroAmountDonationBody` has a present non-empty
donor string and a present `amount` of primitive number type (the number
0), yet `POST /donations` answers ValidationError and inserts nothing,
because `!req.body.amount` rejects the falsy 0. -/
theorem C6_counterexample :
    typeofIsString zeroAmountDonationBody.donorId = true ∧
    asString zeroAmountDonationBody.donorId ≠ "" ∧
    typeofIsNumber zeroAmountDonationBody.amount = true ∧
    createDonation emptyState zeroAmountDonationBody "d1" 0
      = (ApiResult.validationError, emptyState) := by
  decide

/-- C6 (amended): `POST /donations` succeeds — returning the created
Donation and inserting it — exactly when donorId is a truthy (non-empty)
string and amount a truthy (nonzero) number; it answers ValidationError
exactly when donorId is missing, falsy or not a string, or amount is
missing, falsy (0 included) or not a number. -/
theorem C6_donation_validation :
    (∀ (s : State) (b : DonationBody) (newId : String) (now : Int),
      jsNot b.donorId = false → typeofIsString b.donorId = true →
      jsNot b.amount = false → typeofIsNumber b.amount = true →
      createDonation s b newId now =
        (.ok (Donation.mk newId (asString b.donorId) (asNumber b.amount) now),
         { s with donationsStorage := (mapInsert s.donationsStorage newId
            (Donation.mk newId (asString b.donorId) (asNumber b.amount) now)) })) ∧
    (∀ (s : State) (b : DonationBody) (newId : String) (now : Int),
      donationInvalid b = true →
      createDonation s b newId now = (.validationError, s)) := by
  constructor
  · intro s b newId now h1 h2 h3 h4
    have hv : donationInvalid b = false := by
      unfold donationInvalid
      simp [h1, h2, h3, h4]
    simp [createDonation, hv]
  · intro s b newId now h
    simp [createDonation, h]

/-- C6 applied concretely: a donation of 7 from "d1" succeeds; the same
donor with `amount = 0` hits the validation branch. -/
theorem C6_donation_validation_witness :
    createDonation emptyState
      { donorId := some (JsValue.str "d1"), amount := some (JsValue.num 7) } "d1" 2
      = (.ok (Donation.mk "d1" "d1" 7 2),
         { emptyState with donationsStorage := [("d1", Donation.mk "d1" "d1" 7 2)] }) ∧
    createDonation emptyState zeroAmountDonationBody "d2" 2
      = (.validationError, emptyState) := by
  constructor
  · simpa [emptyState, mapInsert, asString, asNumber] using
      C6_donation_validation.1 emptyState
        { donorId := some (JsValue.str "d1"), amount := some (JsValue.num 7) } "d1" 2
        (by decide) (by decide) (by decide) (by decide)
  · exact C6_donation_validation.2 emptyState zeroAmountDonationBody "d2" 2 (by decide)

/-! ### C8 -/

/-- C8 counterexample: `objDateEventBody` has non-empty string title,
description and location and a `dateTime` that is present and truthy but
not timestamp-coercible (`new Date` on it gives an Invalid Date); the
claim says this is a ValidationError, but the endpoint accepts it and
inserts an Event whose stored `dateTime` is the invalid timestamp. -/
theorem C8_counterexample :
    truthy JsValue.obj = true ∧
    jsNewDate JsValue.obj = JsDate.invalid ∧
    createEvent emptyState objDateEventBody "e1" 0
      = (ApiResult.ok (Event.mk "e1" "t" "d" JsDate.invalid "l" 0),
         { emptyState with eventsStorage :=
            [("e1", Event.mk "e1" "t" "d" JsDate.invalid "l" 0)] }) := by
  decide

/-- C8 (amended): every Event inserted by `POST /events` has non-empty
string title, description and location and a truthy `dateTime` input,
stored as the `new Date` coercion of that input — which need not be a
parseable timestamp, since the handler never checks coercibility;
ValidationError is answered exactly when one of the truthiness/type
checks fails (in particular when `dateTime` is absent or falsy). -/
theorem C8_event_validation :
    (∀ (s : State) (b : EventBody) (newId : String) (now : Int),
      jsNot b.title = false → typeofIsString b.title = true →
      jsNot b.description = false → typeofIsString b.description = true →
      jsNot b.dateTime = false →
      jsNot b.location = false → typeofIsString b.location = true →
      createEvent s b newId now =
        (.ok (Event.mk newId (asString b.title) (asString b.description)
            (jsNewDateOpt b.dateTime) (asString b.location) now),
         { s with eventsStorage := (mapInsert s.eventsStorage newId
            (Event.mk newId (asString b.title) (asString b.description)
              (jsNewDateOpt b.dateTime) (asString b.location) now)) })) ∧
    (∀ (s : State) (b : EventBody) (newId : String) (now : Int),
      eventInvalid b = true →
      createEvent s b newId now = (.validationError, s)) := by
  constructor
  · intro s b newId now h1 h2 h3 h4 h5 h6 h7
    have hv : eventInvalid b = false := by
      unfold eventInvalid
      simp [h1, h2, h3, h4, h5, h6, h7]
    simp [createEvent, hv]
  · intro s b newId now h
    simp [createEvent, h]

/-- C8 applied concretely: a timestamp-valued `dateTime` of 11 succeeds
with the coerced date stored; an absent `dateTime` is rejected. -/
theorem C8_event_validation_witness :
    createEvent emptyState
      { title := some (JsValue.str "t"), description := some (JsValue.str "d"),
        dateTime := some (JsValue.num 11), location := some (JsValue.str "l") }
      "e1" 4
      = (.ok (Event.mk "e1" "t" "d" (JsDate.valid 11) "l" 4),
         { emptyState with eventsStorage :=
            [("e1", Event.mk "e1" "t" "d" (JsDate.valid 11) "l" 4)] }) ∧
    createEvent emptyState
      { title := some (JsValue.str "t"), description := some (JsValue.str "d"),
        dateTime := none, location := some (JsValue.str "l") } "e2" 4
      = (.validationError, emptyState) := by
  constructor
  · simpa [emptyState, mapInsert, asString, jsNewDateOpt, jsNewDate] using
      C8_event_validation.1 emptyState
        { title := some (JsValue.str "t"), description := some (JsValue.str "d"),
          dateTime := some (JsValue.num 11), location := some (JsValue.str "l") }
        "e1" 4 (by decide) (by decide) (by decide) (by decide) (by decide)
        (by decide) (by decide)
  · exact C8_event_validation.2 emptyState
      { title := some (JsValue.str "t"), description := some (JsValue.str "d"),
        dateTime := none, location := some (JsValue.str "l") } "e2" 4 (by decide)

/-! ### C5 -/

/-- C5 counterexample: `datedTitheBody` is a valid create input (it
passes the endpoint's validation and its memberId exists) supplying
`commitmentDate = 5`, but the record returned and stored by the create at
time 0 carries `commitmentDate = 0` — the record equal to the input
fields plus id and createdAt is NOT what get/list return, so not every
supplied input field value is stored as given. -/
theorem C5_counterexample :
    datedTitheBody.commitmentDate = some (JsValue.num 5) ∧
    contributionInvalid datedTitheBody = false ∧
    mapGet oneMemberState.membersStorage (asString datedTitheBody.memberId)
      = some mAna ∧
    (createContribution oneMemberState datedTitheBody "c1" 0).1
      = ApiResult.ok
          (Contribution.mk "c1" "m1" "Tithe" 50 "Sunday" (JsDate.valid 0) none 0) ∧
    (createContribution oneMemberState datedTitheBody "c1" 0).1
      ≠ ApiResult.ok
          (Contribution.mk "c1" "m1" "Tithe" 50 "Sunday" (JsDate.valid 5) none 0) := by
  decide

/-- C5 (amended): for every input accepted by a create endpoint, get and
list immediately afterwards return the created record, whose fields equal
the supplied inputs plus the generated id and createdAt, except for the
date-valued fields: an Event stores the `new Date` coercion of its
dateTime input; a Contribution stores as commitmentDate the coercion of
the supplied value when type is "Pledge" and otherwise the creation time
(ignoring any supplied value), and always starts with a null
fulfillmentDate. -/
theorem C5_roundtrip :
    (∀ (s : State) (b : MemberBody) (newId : String) (now : Int),
      memberInvalid b = false →
      (createMember s b newId now).1
        = .ok (Member.mk newId (b.name.getD JsValue.null)
            (b.contact.getD JsValue.null) (b.membershipStatus.getD JsValue.null) now) ∧
      mapGet (createMember s b newId now).2.membersStorage newId
        = some (Member.mk newId (b.name.getD JsValue.null)
            (b.contact.getD JsValue.null) (b.membershipStatus.getD JsValue.null) now) ∧
      Member.mk newId (b.name.getD JsValue.null) (b.contact.getD JsValue.null)
          (b.membershipStatus.getD JsValue.null) now
        ∈ listMembers (createMember s b newId now).2) ∧
    (∀ (s : State) (b : EventBody) (newId : String) (now : Int),
      eventInvalid b = false →
      (createEvent s b newId now).1
        = .ok (Event.mk newId (asString b.title) (asString b.description)
            (jsNewDateOpt b.dateTime) (asString b.location) now) ∧
      mapGet (createEvent s b newId now).2.eventsStorage newId
        = some (Event.mk newId (asString b.title) (asString b.description)
            (jsNewDateOpt b.dateTime) (asString b.location) now) ∧
      Event.mk newId (asString b.title) (asString b.description)
          (jsNewDateOpt b.dateTime) (asString b.location) now
        ∈ mapValues (createEvent s b newId now).2.eventsStorage) ∧
    (∀ (s : State) (b : DonationBody) (newId : String) (now : Int),
      donationInvalid b = false →
      (createDonation s b newId now).1
        = .ok (Donation.mk newId (asString b.donorId) (asNumber b.amount) now) ∧
      mapGet (createDonation s b newId now).2.donationsStorage newId
        = some (Donation.mk newId (asString b.donorId) (asNumber b.amount) now) ∧
      Donation.mk newId (asString b.donorId) (asNumber b.amount) now
        ∈ mapValues (createDonation s b newId now).2.donationsStorage) ∧
    (∀ (s : State) (b : ContributionBody) (newId : String) (now : Int) (m : Member),
      contributionInvalid b = false →
      mapGet s.membersStorage (asString b.memberId) = some m →
      (createContribution s b newId now).1
        = .ok (Contribution.mk newId (asString b.memberId) (asString b.type)
            (asNumber b.amount) (asString b.description)
            (if b.type = some (JsValue.str "Pledge") then jsNewDateOpt b.commitmentDate
              else JsDate.valid now) none now) ∧
      mapGet (createContribution s b newId now).2.contributionsStorage newId
        = some (Contribution.mk newId (asString b.memberId) (asString b.type)
            (asNumber b.amount) (asString b.description)
            (if b.type = some (JsValue.str "Pledge") then jsNewDateOpt b.commitmentDate
              else JsDate.valid now) none now) ∧
      Contribution.mk newId (asString b.memberId) (asString b.type)
          (asNumber b.amount) (asString b.description)
          (if b.type = some (JsValue.str "Pledge") then jsNewDateOpt b.commitmentDate
            else JsDate.valid now) none now
        ∈ listContributions (createContribution s b newId now).2) ∧
    (∀ (s : State) (b : PrayerRequestBody) (newId : String) (now : Int),
      prayerRequestInvalid b = false →
      (createPrayerRequest s b newId now).1
        = .ok (PrayerRequest.mk newId (asString b.memberId) (asString b.request) now) ∧
      mapGet (createPrayerRequest s b newId now).2.prayerRequestsStorage newId
        = some (PrayerRequest.mk newId (asString b.memberId) (asString b.request) now) ∧
      PrayerRequest.mk newId (asString b.memberId) (asString b.request) now
        ∈ mapValues (createPrayerRequest s b newId now).2.prayerRequestsStorage) ∧
    (∀ (s : State) (b : ContentBody) (newId : String) (now : Int),
      contentInvalid b = false →
      (createContent s b newId now).1
        = .ok (Content.mk newId (asString b.type) (asString b.title)
            (asString b.content) now) ∧
      mapGet (createContent s b newId now).2.contentStorage newId
        = some (Content.mk newId (asString b.type) (asString b.title)
            (asString b.content) now) ∧
      Content.mk newId (asString b.type) (asString b.title) (asString b.content) now
        ∈ mapValues (createContent s b newId now).2.contentStorage) := by
  refine ⟨?_, ?_, ?_, ?_, ?_, ?_⟩
  · intro s b newId now h
    refine ⟨?_, ?_, ?_⟩
    · simp [createMember, h, Member.make]
    · simp [createMember, h, Member.make, mapGet_insert]
    · simp only [createMember, h, Bool.false_eq_true, if_false, Member.make,
        listMembers]
      exact mem_values_insert _ _ _
  · intro s b newId now h
    refine ⟨?_, ?_, ?_⟩
    · simp [createEvent, h]
    · simp [createEvent, h, mapGet_insert]
    · simp only [createEvent, h, Bool.false_eq_true, if_false]
      exact mem_values_insert _ _ _
  · intro s b newId now h
    refine ⟨?_, ?_, ?_⟩
    · simp [createDonation, h]
    · simp [createDonation, h, mapGet_insert]
    · simp only [createDonation, h, Bool.false_eq_true, if_false]
      exact mem_values_insert _ _ _
  · intro s b newId now m h hm
    by_cases hp : b.type = some (JsValue.str "Pledge")
    · refine ⟨?_, ?_, ?_⟩
      · simp [createContribution, h, hm, hp, Contribution.make]
      · simp [createContribution, h, hm, hp, Contribution.make, mapGet_insert]
      · simp only [createContribution, h, Bool.false_eq_true, if_false, hm, hp,
          if_true, Contribution.make, listContributions, Option.getD_some]
        exact mem_values_insert _ _ _
    · refine ⟨?_, ?_, ?_⟩
      · simp [createContribution, h, hm, hp, Contribution.make]
      · simp [createContribution, h, hm, hp, Contribution.make, mapGet_insert]
      · simp only [createContribution, h, Bool.false_eq_true, if_false, hm, hp,
          if_true, Contribution.make, listContributions, Option.getD_none]
        exact mem_values_insert _ _ _
  · intro s b newId now h
    refine ⟨?_, ?_, ?_⟩
    · simp [createPrayerRequest, h]
    · simp [createPrayerRequest, h, mapGet_insert]
    · simp only [createPrayerRequest, h, Bool.false_eq_true, if_false]
      exact mem_values_insert _ _ _
  · intro s b newId now h
    refine ⟨?_, ?_, ?_⟩
    · simp [createContent, h]
    · simp [createContent, h, mapGet_insert]
    · simp only [createContent, h, Bool.false_eq_true, if_false]
      exact mem_values_insert _ _ _

/-- C5 applied to one concrete valid create per entity type. -/
theorem C5_roundtrip_witness :
    (createMember emptyState
      { name := some (JsValue.str "Ana"), contact := some (JsValue.str "a@x.com"),
        membershipStatus := some (JsValue.str "Active") } "m1" 0).1
      = .ok (Member.mk "m1" (JsValue.str "Ana") (JsValue.str "a@x.com")
          (JsValue.str "Active") 0) ∧
    (createEvent emptyState
      { title := some (JsValue.str "t"), description := some (JsValue.str "d"),
        dateTime := some (JsValue.num 11), location := some (JsValue.str "l") }
      "e1" 4).1
      = .ok (Event.mk "e1" "t" "d" (JsDate.valid 11) "l" 4) ∧
    (createDonation emptyState
      { donorId := some (JsValue.str "d1"), amount := some (JsValue.num 7) }
      "d1" 2).1
      = .ok (Donation.mk "d1" "d1" 7 2) ∧
    (createContribution oneMemberState datedPledgeBody "c1" 3).1
      = .ok (Contribution.mk "c1" "m1" "Pledge" 10 "x" (JsDate.valid 9) none 3) ∧
    (createPrayerRequest emptyState
      { memberId := some (JsValue.str "m1"), request := some (JsValue.str "pray") }
      "p1" 1).1
      = .ok (PrayerRequest.mk "p1" "m1" "pray" 1) ∧
    (createContent emptyState
      { type := some (JsValue.str "Sermon"), title := some (JsValue.str "t"),
        content := some (JsValue.str "c") } "ct1" 1).1
      = .ok (Content.mk "ct1" "Sermon" "t" "c" 1) := by
  refine ⟨?_, ?_, ?_, ?_, ?_, ?_⟩
  · exact (C5_roundtrip.1 emptyState
      { name := some (JsValue.str "Ana"), contact := some (JsValue.str "a@x.com"),
        membershipStatus := some (JsValue.str "Active") } "m1" 0 (by decide)).1
  · simpa [asString, jsNewDateOpt, jsNewDate, parseDateString] using
      (C5_roundtrip.2.1 emptyState
        { title := some (JsValue.str "t"), description := some (JsValue.str "d"),
          dateTime := some (JsValue.num 11), location := some (JsValue.str "l") }
        "e1" 4 (by decide)).1
  · simpa [asString, asNumber] using
      (C5_roundtrip.2.2.1 emptyState
        { donorId := some (JsValue.str "d1"), amount := some (JsValue.num 7) }
        "d1" 2 (by decide)).1
  · simpa [datedPledgeBody, asString, asNumber, jsNewDateOpt, jsNewDate,
      parseDateString] using
      (C5_roundtrip.2.2.2.1 oneMemberState datedPledgeBody "c1" 3 mAna
        (by decide) (by decide)).1
  · simpa [asString] using
      (C5_roundtrip.2.2.2.2.1 emptyState
        { memberId := some (JsValue.str "m1"), request := some (JsValue.str "pray") }
        "p1" 1 (by decide)).1
  · simpa [asString] using
      (C5_roundtrip.2.2.2.2.2 emptyState
        { type := some (JsValue.str "Sermon"), title := some (JsValue.str "t"),
          content := some (JsValue.str "c") } "ct1" 1 (by decide)).1

end Church
